import Mathlib

/-!
Verification of the Monopoly strategy-comparison harness
(dummy player vs no-brown player).

The development shallowly embeds the buy operation of the no-brown
variant player (the subclassed method and the MethodType replacement are
transcribed separately, the decorator is built from the wrapper and the
shared base body), the monopoly bookkeeping it performs, the per-trial
round loop with its bankruptcy checks and turn cap, and the aggregation
feeding the two-sided binomial test.
-/

namespace MonopolySim

/-- The color groups handled by the buy operation's marking chain. -/
inductive Color where
  | brown
  | light_blue
  | purple
  | orange
  | red
  | yellow
  | green
  | blue
deriving DecidableEq, Repr

/-- One entry of the shared roads table: the fields of a road's info
dictionary that the buy operation reads or writes. -/
structure RoadInfo where
  color : Color
  price : Int
  mortgage_value : Int
  belongs_to : Option String
deriving DecidableEq, Repr

/-- The per-player fields touched by the buy operation. -/
structure PlayerState where
  name : String
  cash : Int
  list_owned_roads : List String
  owned_houses_hotels : String → Option (Nat × Nat)
  properties_total_mortgageable_amount : Int
  owned_colors : Color → Bool

/-- The state a buy call can reach: the acting player, the shared bank
cash, the cash of the other players (never referenced by a buy), and
the shared roads table.  A call passes a road name; the road-info
dictionary argument is the table's entry for that name, aliased with
the table as at the python call sites. -/
structure BuyState where
  player : PlayerState
  bank_cash : Int
  others_cash : List Int
  roads : String → RoadInfo

/-- The counting loop of the buy operation: how many entries of the
owned list have the given color per the roads table. -/
def countRoadsOfColor (roads : String → RoadInfo) (owned : List String) (color : Color) : Nat :=
  owned.foldl (fun acc road => if color = (roads road).color then acc + 1 else acc) 0

/-- The single dictionary write self.dict_owned_colors[color] = True. -/
def setColorTrue (owned : Color → Bool) (color : Color) : Color → Bool :=
  fun c => if c = color then true else owned c

/-- The chained conditionals at the end of the buy operation that mark
a completed color group. -/
def updateOwnedColors (owned : Color → Bool) (color : Color) (cnt : Nat) : Color → Bool :=
  if color = Color.brown ∧ cnt = 2 then setColorTrue owned color
  else if color = Color.light_blue ∧ cnt = 3 then setColorTrue owned color
  else if color = Color.purple ∧ cnt = 3 then setColorTrue owned color
  else if color = Color.orange ∧ cnt = 3 then setColorTrue owned color
  else if color = Color.red ∧ cnt = 3 then setColorTrue owned color
  else if color = Color.yellow ∧ cnt = 3 then setColorTrue owned color
  else if color = Color.green ∧ cnt = 3 then setColorTrue owned color
  else if color = Color.blue ∧ cnt = 2 then setColorTrue owned color
  else owned

/-- The static per-color completion threshold table of the spec. -/
def threshold : Color → Nat
  | Color.brown => 2
  | Color.light_blue => 3
  | Color.purple => 3
  | Color.orange => 3
  | Color.red => 3
  | Color.yellow => 3
  | Color.green => 3
  | Color.blue => 2

/-- The buy method of the subclass Player_no_brown: skip brown roads,
otherwise raise when cash is below the price, else pay the bank, take
ownership, record the improvement pair and the mortgage value, and
re-run the monopoly marking.  The first component is the raised
exception, if any; the second is the state when the call returns or
the exception escapes (the raise happens before any mutation). -/
def buy_no_brown (s : BuyState) (road_name : String) : Except String Unit × BuyState :=
  let dict_road_info := s.roads road_name
  if dict_road_info.color = Color.brown then
    (Except.ok (), s)
  else
    let road_price := dict_road_info.price
    if s.player.cash < road_price then
      (Except.error ("Player " ++ s.player.name ++ " does not have enough money"), s)
    else
      let bank2 := s.bank_cash + road_price
      let cash2 := s.player.cash - road_price
      let roads2 := fun r =>
        if r = road_name then { s.roads r with belongs_to := some s.player.name } else s.roads r
      let owned2 := s.player.list_owned_roads ++ [road_name]
      let houses2 := fun r =>
        if r = road_name then some ((0 : Nat), (0 : Nat)) else s.player.owned_houses_hotels r
      let mort2 := s.player.properties_total_mortgageable_amount + dict_road_info.mortgage_value
      let color := dict_road_info.color
      let cnt := countRoadsOfColor roads2 owned2 color
      let colors2 := updateOwnedColors s.player.owned_colors color cnt
      (Except.ok (),
        { player :=
            { s.player with
              cash := cash2
              list_owned_roads := owned2
              owned_houses_hotels := houses2
              properties_total_mortgageable_amount := mort2
              owned_colors := colors2 }
          bank_cash := bank2
          others_cash := s.others_cash
          roads := roads2 })

/-- Modelled from the spec: the body of the base Player.buy from the
monosim package, which is not under the harness source; the notebook
states that the subclassed method is this body copied with the brown
guard added, so it is that body without the guard. -/
def buy_base (s : BuyState) (road_name : String) : Except String Unit × BuyState :=
  let dict_road_info := s.roads road_name
  let road_price := dict_road_info.price
  if s.player.cash < road_price then
    (Except.error ("Player " ++ s.player.name ++ " does not have enough money"), s)
  else
    let bank2 := s.bank_cash + road_price
    let cash2 := s.player.cash - road_price
    let roads2 := fun r =>
      if r = road_name then { s.roads r with belongs_to := some s.player.name } else s.roads r
    let owned2 := s.player.list_owned_roads ++ [road_name]
    let houses2 := fun r =>
      if r = road_name then some ((0 : Nat), (0 : Nat)) else s.player.owned_houses_hotels r
    let mort2 := s.player.properties_total_mortgageable_amount + dict_road_info.mortgage_value
    let color := dict_road_info.color
    let cnt := countRoadsOfColor roads2 owned2 color
    let colors2 := updateOwnedColors s.player.owned_colors color cnt
    (Except.ok (),
      { player :=
          { s.player with
            cash := cash2
            list_owned_roads := owned2
            owned_houses_hotels := houses2
            properties_total_mortgageable_amount := mort2
            owned_colors := colors2 }
        bank_cash := bank2
        others_cash := s.others_cash
        roads := roads2 })

/-- The decorator modify_buy: wrap a buy function with the brown
guard, passing through otherwise. -/
def modify_buy (buyFn : BuyState → String → Except String Unit × BuyState) :
    BuyState → String → Except String Unit × BuyState :=
  fun s road_name =>
    if (s.roads road_name).color = Color.brown then
      (Except.ok (), s)
    else
      buyFn s road_name

/-- The function buy_new installed per instance via types.MethodType;
its python text is identical to the subclassed method. -/
def buy_new (s : BuyState) (road_name : String) : Except String Unit × BuyState :=
  let dict_road_info := s.roads road_name
  if dict_road_info.color = Color.brown then
    (Except.ok (), s)
  else
    let road_price := dict_road_info.price
    if s.player.cash < road_price then
      (Except.error ("Player " ++ s.player.name ++ " does not have enough money"), s)
    else
      let bank2 := s.bank_cash + road_price
      let cash2 := s.player.cash - road_price
      let roads2 := fun r =>
        if r = road_name then { s.roads r with belongs_to := some s.player.name } else s.roads r
      let owned2 := s.player.list_owned_roads ++ [road_name]
      let houses2 := fun r =>
        if r = road_name then some ((0 : Nat), (0 : Nat)) else s.player.owned_houses_hotels r
      let mort2 := s.player.properties_total_mortgageable_amount + dict_road_info.mortgage_value
      let color := dict_road_info.color
      let cnt := countRoadsOfColor roads2 owned2 color
      let colors2 := updateOwnedColors s.player.owned_colors color cnt
      (Except.ok (),
        { player :=
            { s.player with
              cash := cash2
              list_owned_roads := owned2
              owned_houses_hotels := houses2
              properties_total_mortgageable_amount := mort2
              owned_colors := colors2 }
          bank_cash := bank2
          others_cash := s.others_cash
          roads := roads2 })

/-- A sequence of buy calls by the no-brown variant player, threading
the state; a skipped or failed call leaves the state as it was. -/
def buysFrom (s : BuyState) : List String → BuyState
  | [] => s
  | r :: rs => buysFrom (buy_no_brown s r).2 rs

/-- Modelled from the spec: a freshly constructed player (the monosim
Player initializer is not under the harness source) — no owned roads,
no recorded improvements, no completed color groups, zero cumulative
mortgageable value, the given starting cash. -/
def initPlayer (name : String) (cash : Int) : PlayerState :=
  { name := name
    cash := cash
    list_owned_roads := []
    owned_houses_hotels := fun _ => none
    properties_total_mortgageable_amount := 0
    owned_colors := fun _ => false }

/-- A fresh game state around a fresh player. -/
def initState (name : String) (cash bank : Int) (others : List Int)
    (roads : String → RoadInfo) : BuyState :=
  { player := initPlayer name cash
    bank_cash := bank
    others_cash := others
    roads := roads }

/-- Total cash in the game: bank plus every player. -/
def totalCash (s : BuyState) : Int :=
  s.bank_cash + s.player.cash + s.others_cash.sum

/-- The three outcome labels a trial can record. -/
inductive Outcome where
  | player1_lost
  | player2_lost
  | nobody_lost
deriving DecidableEq, Repr

/-- One pass of the inner for-loop of a trial: each player of the
shuffled list plays once, in order, with no check in between.  The
game dynamics play and the bankruptcy predicate are external to the
harness source, so the loop is embedded over an abstract game-state
type; player 0 stands for player1 and player 1 for player2. -/
def playRound {σ : Type} (play : Fin 2 → σ → σ) (order : Fin 2 × Fin 2) (s : σ) : σ :=
  play order.2 (play order.1 s)

/-- The while-loop of a trial: as long as neither player has lost and
the round budget remains, run one full round.  The fuel argument is
the number of rounds still allowed by idx_count < 1000. -/
def runRounds {σ : Type} (hasLost : Fin 2 → σ → Bool) (play : Fin 2 → σ → σ)
    (order : Fin 2 × Fin 2) : Nat → σ → σ
  | 0, s => s
  | n + 1, s =>
    if hasLost 0 s || hasLost 1 s then s
    else runRounds hasLost play order n (playRound play order s)

/-- The if / elif / else at the end of a trial that labels the final
state, checking player1 first. -/
def outcomeOf {σ : Type} (hasLost : Fin 2 → σ → Bool) (s : σ) : Outcome :=
  if hasLost 0 s then Outcome.player1_lost
  else if hasLost 1 s then Outcome.player2_lost
  else Outcome.nobody_lost

/-- One whole trial: run at most 1000 rounds in the shuffled order,
then record the outcome label together with the name of the player
listed first in the turn order. -/
def runTrial {σ : Type} (hasLost : Fin 2 → σ → Bool) (play : Fin 2 → σ → σ)
    (names : Fin 2 → String) (order : Fin 2 × Fin 2) (s : σ) : Outcome × String :=
  (outcomeOf hasLost (runRounds hasLost play order 1000 s), names order.1)

/-- Instrumentation of a play function: also count how many play calls
each player has executed. -/
def countingPlay {σ : Type} (play : Fin 2 → σ → σ) :
    Fin 2 → σ × Nat × Nat → σ × Nat × Nat :=
  fun i x =>
    (play i x.1,
      (if i = 0 then x.2.1 + 1 else x.2.1),
      (if i = 1 then x.2.2 + 1 else x.2.2))

/-- Lift a bankruptcy predicate through the counting instrumentation. -/
def liftLost {σ : Type} (hasLost : Fin 2 → σ → Bool) :
    Fin 2 → σ × Nat × Nat → Bool :=
  fun i x => hasLost i x.1

/-- One recorded row of the results list: seed, outcome label, and the
name of the player who moved first. -/
structure TrialResult where
  seed : Nat
  lost_player : Outcome
  starting_player : String
deriving DecidableEq, Repr

/-- Count of rows labelled player1_lost. -/
def n_lost_p1 (results : List TrialResult) : Nat :=
  (results.filter (fun t => decide (t.lost_player = Outcome.player1_lost))).length

/-- Count of rows labelled player2_lost. -/
def n_lost_p2 (results : List TrialResult) : Nat :=
  (results.filter (fun t => decide (t.lost_player = Outcome.player2_lost))).length

/-- The rows whose trial reached a decision. -/
def decidedOnly (results : List TrialResult) : List TrialResult :=
  results.filter (fun t => !decide (t.lost_player = Outcome.nobody_lost))

/-- The arguments of the statistical-test call. -/
structure BinomCall where
  k : Nat
  n : Nat
  p : Rat
  two_sided : Bool
deriving DecidableEq, Repr

/-- The call binomtest with k the player1_lost count, n the sum of the
two loss counts, null probability one half, two-sided alternative. -/
def significanceCall (results : List TrialResult) : BinomCall :=
  { k := n_lost_p1 results
    n := n_lost_p1 results + n_lost_p2 results
    p := 1 / 2
    two_sided := true }

/-- Modelled from the spec: the external scipy binomtest primitive, as
the spec describes it — the exact two-sided binomial p-value against
null probability one half: the total probability of every count whose
point probability does not exceed that of the observed count. -/
def binomTwoSidedPValue (k n : Nat) : Rat :=
  (((List.range (n + 1)).filter (fun i => decide (Nat.choose n i ≤ Nat.choose n k))).map
    (fun i => (Nat.choose n i : Rat) / 2 ^ n)).sum

/-- The significance statistic the harness computes from the results. -/
def significance (results : List TrialResult) : Rat :=
  binomTwoSidedPValue (significanceCall results).k (significanceCall results).n

/-- Cash-and-plays game state used to instantiate the abstract trial
loop on concrete inputs: the two cash balances and a counter of the
second seat's play calls. -/
def cPlay : Fin 2 → Int × Int × Nat → Int × Int × Nat :=
  fun i x => if i = 0 then (x.1 - 100, x.2.1, x.2.2) else (x.1, x.2.1, x.2.2 + 1)

/-- Bankruptcy for the concrete instantiation: a negative balance. -/
def cLost : Fin 2 → Int × Int × Nat → Bool :=
  fun i x => if i = 0 then decide (x.1 < 0) else decide (x.2.1 < 0)

/-- Both seats start with cash 50 and no plays counted. -/
def cInit : Int × Int × Nat := (50, 50, 0)

/-- A start state in which player 0 has already lost. -/
def cInitLost : Int × Int × Nat := (-1, 50, 0)

/-- The display names of the two players. -/
def cNames : Fin 2 → String :=
  fun i => if i = 0 then "player1" else "player2"

/-- A road of a non-declined color priced 60, as in the spec's
insufficient-funds scenario. -/
def road60 : RoadInfo :=
  { color := Color.purple, price := 60, mortgage_value := 30, belongs_to := none }

/-- A roads table in which every name is that road. -/
def exRoads : String → RoadInfo := fun _ => road60

/-- A player state rich enough to buy road60. -/
def exState : BuyState :=
  { player := initPlayer "player1" 1500
    bank_cash := 20000
    others_cash := [1500]
    roads := exRoads }

/-- A player state with cash 50, below road60's price. -/
def exStatePoor : BuyState :=
  { player := initPlayer "player1" 50
    bank_cash := 20000
    others_cash := [1500]
    roads := exRoads }

/-- A brown road. -/
def brownRoad : RoadInfo :=
  { color := Color.brown, price := 60, mortgage_value := 30, belongs_to := none }

/-- A roads table that is entirely brown and unowned. -/
def exRoadsBrown : String → RoadInfo := fun _ => brownRoad

/-- A poor player facing only brown roads. -/
def exStateBrown : BuyState :=
  { player := initPlayer "player1" 10
    bank_cash := 20000
    others_cash := [1500]
    roads := exRoadsBrown }

/-- A player who already completed the red group. -/
def exStateMarked : BuyState :=
  { player :=
      { name := "player1"
        cash := 1500
        list_owned_roads := ["a", "b", "c"]
        owned_houses_hotels := fun _ => none
        properties_total_mortgageable_amount := 90
        owned_colors := fun c => decide (c = Color.red) }
    bank_cash := 20000
    others_cash := [1500]
    roads := exRoads }

/-- The marking invariant relating the completed-colors map to the
owned-roads counts and the threshold table. -/
def colorInv (s : BuyState) : Prop :=
  ∀ c, s.player.owned_colors c = true ↔
    threshold c ≤ countRoadsOfColor s.roads s.player.list_owned_roads c

/-- The player owns no brown road in the roads table. -/
def noBrownOwned (s : BuyState) : Prop :=
  ∀ road, (s.roads road).belongs_to = some s.player.name →
    ¬ (s.roads road).color = Color.brown

/-- Everything a successful buy must have done: exception-free return,
cash debited and bank credited by the price, ownership recorded, the
road appended at the end of the owned list, the improvement pair
initialized to (0, 0), the mortgage value accumulated, total cash
conserved; and the MethodType variant agrees with the subclass. -/
def buySuccessSpec (s : BuyState) (road_name : String) : Prop :=
  (buy_no_brown s road_name).1 = Except.ok () ∧
  (buy_no_brown s road_name).2.player.cash = s.player.cash - (s.roads road_name).price ∧
  (buy_no_brown s road_name).2.bank_cash = s.bank_cash + (s.roads road_name).price ∧
  ((buy_no_brown s road_name).2.roads road_name).belongs_to = some s.player.name ∧
  (buy_no_brown s road_name).2.player.list_owned_roads
    = s.player.list_owned_roads ++ [road_name] ∧
  (buy_no_brown s road_name).2.player.owned_houses_hotels road_name = some (0, 0) ∧
  (buy_no_brown s road_name).2.player.properties_total_mortgageable_amount
    = s.player.properties_total_mortgageable_amount + (s.roads road_name).mortgage_value ∧
  totalCash (buy_no_brown s road_name).2 = totalCash s ∧
  buy_new s road_name = buy_no_brown s road_name

theorem updateOwnedColors_eq (owned : Color → Bool) (color : Color) (cnt : Nat) :
    updateOwnedColors owned color cnt =
      if cnt = threshold color then setColorTrue owned color else owned := by
  cases color <;> simp [updateOwnedColors, threshold]

/-- Claim C1: a buy on an affordable road of a non-declined color debits
the player by the price, credits the bank by the price, sets the road's
owner to the player's name, appends the road to the owned list,
initializes the improvement pair to (0, 0), accumulates the mortgage
value, and conserves total cash; the MethodType variant does the same. -/
theorem buy_success_updates (s : BuyState) (road_name : String)
    (hnb : ¬ (s.roads road_name).color = Color.brown)
    (hcash : ¬ s.player.cash < (s.roads road_name).price) :
    buySuccessSpec s road_name := by
  unfold buySuccessSpec totalCash
  simp only [buy_no_brown, buy_new]
  rw [if_neg hnb, if_neg hcash]
  simp

theorem buy_success_updates_witness :
    (¬ (exState.roads "r").color = Color.brown) ∧
    (¬ exState.player.cash < (exState.roads "r").price) ∧
    buySuccessSpec exState "r" :=
  ⟨by decide, by decide, buy_success_updates exState "r" (by decide) (by decide)⟩

/-- Claim C2: a buy on a non-declined road the player cannot afford
raises the insufficient-funds exception and leaves the whole state
exactly as it was, in both the subclass and the MethodType variant. -/
theorem buy_insufficient_funds_error (s : BuyState) (road_name : String)
    (hnb : ¬ (s.roads road_name).color = Color.brown)
    (hcash : s.player.cash < (s.roads road_name).price) :
    buy_no_brown s road_name =
      (Except.error ("Player " ++ s.player.name ++ " does not have enough money"), s) ∧
    buy_new s road_name =
      (Except.error ("Player " ++ s.player.name ++ " does not have enough money"), s) := by
  constructor <;>
  · simp only [buy_no_brown, buy_new]
    rw [if_neg hnb, if_pos hcash]

theorem buy_insufficient_funds_error_witness :
    (¬ (exStatePoor.roads "r").color = Color.brown) ∧
    exStatePoor.player.cash < (exStatePoor.roads "r").price ∧
    (buy_no_brown exStatePoor "r" =
      (Except.error ("Player " ++ exStatePoor.player.name ++ " does not have enough money"),
        exStatePoor) ∧
     buy_new exStatePoor "r" =
      (Except.error ("Player " ++ exStatePoor.player.name ++ " does not have enough money"),
        exStatePoor)) :=
  ⟨by decide, by decide, buy_insufficient_funds_error exStatePoor "r" (by decide) (by decide)⟩

/-- Claim C6: a color group already marked complete stays complete
through any further buy call, in both the subclass and the MethodType
variant; the marking chain only ever writes True. -/
theorem monopoly_never_unmarked (s : BuyState) (road_name : String) (c : Color)
    (hm : s.player.owned_colors c = true) :
    (buy_no_brown s road_name).2.player.owned_colors c = true ∧
    (buy_new s road_name).2.player.owned_colors c = true := by
  have key : ∀ (owned : Color → Bool) (color : Color) (cnt : Nat),
      owned c = true → updateOwnedColors owned color cnt c = true := by
    intro owned color cnt h
    rw [updateOwnedColors_eq]
    by_cases hc : cnt = threshold color
    · rw [if_pos hc]
      unfold setColorTrue
      by_cases h2 : c = color <;> simp [h2, h]
    · rw [if_neg hc]; exact h
  constructor <;>
  · simp only [buy_no_brown, buy_new]
    by_cases h1 : (s.roads road_name).color = Color.brown
    · rw [if_pos h1]; exact hm
    · rw [if_neg h1]
      by_cases h2 : s.player.cash < (s.roads road_name).price
      · rw [if_pos h2]; exact hm
      · rw [if_neg h2]; exact key _ _ _ hm

theorem monopoly_never_unmarked_witness :
    exStateMarked.player.owned_colors Color.red = true ∧
    ((buy_no_brown exStateMarked "r").2.player.owned_colors Color.red = true ∧
     (buy_new exStateMarked "r").2.player.owned_colors Color.red = true) :=
  ⟨by decide, monopoly_never_unmarked exStateMarked "r" Color.red (by decide)⟩

theorem noBrownOwned_buy (s : BuyState) (r : String) (h : noBrownOwned s) :
    noBrownOwned (buy_no_brown s r).2 := by
  simp only [buy_no_brown]
  by_cases h1 : (s.roads r).color = Color.brown
  · rw [if_pos h1]; exact h
  · rw [if_neg h1]
    by_cases h2 : s.player.cash < (s.roads r).price
    · rw [if_pos h2]; exact h
    · rw [if_neg h2]
      intro road hb
      simp only at hb ⊢
      by_cases hr : road = r
      · subst hr
        simp only [if_pos rfl] at hb ⊢
        exact h1
      · simp only [if_neg hr] at hb ⊢
        exact h road hb

theorem buysFrom_noBrown (rs : List String) :
    ∀ s : BuyState, noBrownOwned s → noBrownOwned (buysFrom s rs) := by
  induction rs with
  | nil => intro s h; exact h
  | cons r rs ih => intro s h; exact ih _ (noBrownOwned_buy s r h)

/-- Claim C7: the no-brown variant leaves everything untouched and
raises nothing on a brown road, whatever the player's cash; hence a
player who starts owning no brown road never owns one after any
sequence of buy calls. -/
theorem no_brown_never_owned (s : BuyState) (r : String) (rs : List String)
    (hb : (s.roads r).color = Color.brown)
    (hown : noBrownOwned s) :
    buy_no_brown s r = (Except.ok (), s) ∧
    buy_new s r = (Except.ok (), s) ∧
    noBrownOwned (buysFrom s rs) := by
  refine ⟨?_, ?_, buysFrom_noBrown rs s hown⟩ <;>
  · simp only [buy_no_brown, buy_new]
    rw [if_pos hb]

theorem no_brown_never_owned_witness :
    (exStateBrown.roads "r").color = Color.brown ∧
    noBrownOwned exStateBrown ∧
    (buy_no_brown exStateBrown "r" = (Except.ok (), exStateBrown) ∧
     buy_new exStateBrown "r" = (Except.ok (), exStateBrown) ∧
     noBrownOwned (buysFrom exStateBrown ["a", "b", "c"])) :=
  ⟨by decide,
   fun road hb => by simp [exStateBrown, exRoadsBrown, brownRoad, initPlayer] at hb,
   no_brown_never_owned exStateBrown "r" ["a", "b", "c"] (by decide)
     (fun road hb => by simp [exStateBrown, exRoadsBrown, brownRoad, initPlayer] at hb)⟩

/-- Claim C9: the decorator applied to the base buy, the subclassed
copied-and-modified buy, and the MethodType-installed buy are the same
function on every state and road. -/
theorem variant_buy_techniques_equal :
    modify_buy buy_base = buy_no_brown ∧ buy_new = buy_no_brown := by
  constructor
  · funext s r
    rfl
  · funext s r
    rfl

/-- Claim C4 as stated is false of the loop: the bankruptcy predicates
are consulted only in the while condition, once per round, so here the
first mover is bankrupt immediately after its own play and yet the
second seat's play still executes (its play counter reaches 1, not 0). -/
theorem trial_check_not_per_turn :
    cLost 0 (cPlay 0 cInit) = true ∧
    ¬ (runRounds cLost cPlay (0, 1) 1000 cInit).2.2 = 0 := by
  constructor
  · decide
  · decide

/-- Claim C4, amended: the bankruptcy predicates are re-checked only at
round boundaries; at the first boundary where either holds the loop
runs no further round and the trial ends with the label of that very
state. -/
theorem trial_round_boundary_check {σ : Type} (hasLost : Fin 2 → σ → Bool)
    (play : Fin 2 → σ → σ) (names : Fin 2 → String) (order : Fin 2 × Fin 2)
    (n : Nat) (s : σ)
    (hl : hasLost 0 s = true ∨ hasLost 1 s = true) :
    runRounds hasLost play order n s = s ∧
    runTrial hasLost play names order s = (outcomeOf hasLost s, names order.1) := by
  have habs : ∀ m, runRounds hasLost play order m s = s := by
    intro m
    cases m with
    | zero => rfl
    | succ k =>
      simp only [runRounds]
      rcases hl with h | h <;> simp [h]
  exact ⟨habs n, by simp only [runTrial, habs 1000]⟩

theorem trial_round_boundary_check_witness :
    (cLost 0 cInitLost = true ∨ cLost 1 cInitLost = true) ∧
    (runRounds cLost cPlay (0, 1) 5 cInitLost = cInitLost ∧
     runTrial cLost cPlay cNames (0, 1) cInitLost =
       (outcomeOf cLost cInitLost, cNames 0)) :=
  ⟨Or.inl (by decide),
   trial_round_boundary_check cLost cPlay cNames (0, 1) 5 cInitLost (Or.inl (by decide))⟩

/-- Claim C5: a trial records exactly one of the three labels together
with the first mover's name; the label is player1_lost exactly when
player1 has lost in the final state (in particular when both have),
player2_lost exactly when only player2 has, and nobody_lost exactly
when neither has (in particular after 1000 full rounds without a
bankruptcy). -/
theorem trial_outcome_exclusive {σ : Type} (hasLost : Fin 2 → σ → Bool)
    (play : Fin 2 → σ → σ) (names : Fin 2 → String) (order : Fin 2 × Fin 2) (s : σ) :
    (runTrial hasLost play names order s).2 = names order.1 ∧
    ((runTrial hasLost play names order s).1 = Outcome.player1_lost ↔
      hasLost 0 (runRounds hasLost play order 1000 s) = true) ∧
    ((runTrial hasLost play names order s).1 = Outcome.player2_lost ↔
      (hasLost 0 (runRounds hasLost play order 1000 s) = false ∧
       hasLost 1 (runRounds hasLost play order 1000 s) = true)) ∧
    ((runTrial hasLost play names order s).1 = Outcome.nobody_lost ↔
      (hasLost 0 (runRounds hasLost play order 1000 s) = false ∧
       hasLost 1 (runRounds hasLost play order 1000 s) = false)) := by
  simp only [runTrial, outcomeOf]
  cases h0 : hasLost 0 (runRounds hasLost play order 1000 s) <;>
  cases h1 : hasLost 1 (runRounds hasLost play order 1000 s) <;>
  simp [h0, h1]

theorem counts_balanced_aux {σ : Type} (hasLost : Fin 2 → σ → Bool)
    (play : Fin 2 → σ → σ) (o : Fin 2 × Fin 2) (ho : o = (0, 1) ∨ o = (1, 0)) :
    ∀ (n : Nat) (s : σ) (a b : Nat), a = b →
      (runRounds (liftLost hasLost) (countingPlay play) o n (s, a, b)).2.1 =
      (runRounds (liftLost hasLost) (countingPlay play) o n (s, a, b)).2.2 := by
  intro n
  induction n with
  | zero => intro s a b hab; simpa using hab
  | succ k ih =>
    intro s a b hab
    simp only [runRounds]
    by_cases hc : (liftLost hasLost 0 (s, a, b) || liftLost hasLost 1 (s, a, b)) = true
    · rw [if_pos hc]; simpa using hab
    · rw [if_neg hc]
      rcases ho with h | h <;> subst h
      · have hstep : playRound (countingPlay play) ((0 : Fin 2), (1 : Fin 2)) (s, a, b)
            = (play 1 (play 0 s), a + 1, b + 1) := by
          simp [playRound, countingPlay]
        rw [hstep]
        exact ih _ _ _ (by omega)
      · have hstep : playRound (countingPlay play) ((1 : Fin 2), (0 : Fin 2)) (s, a, b)
            = (play 0 (play 1 s), a + 1, b + 1) := by
          simp [playRound, countingPlay]
        rw [hstep]
        exact ih _ _ _ (by omega)

/-- Claim C10: within a round both players play exactly once, second
after first, with no bankruptcy consultation in between — the round
function never reads the predicates — so over a whole trial, in either
turn order, the two seats always accumulate identical play counts,
even when the first mover goes bankrupt mid-round. -/
theorem round_runs_both_players {σ : Type} (hasLost : Fin 2 → σ → Bool)
    (play : Fin 2 → σ → σ) (p q : Fin 2) (s : σ) (n : Nat) (a : Nat) :
    playRound play (p, q) s = play q (play p s) ∧
    (runRounds (liftLost hasLost) (countingPlay play) (0, 1) n (s, a, a)).2.1 =
      (runRounds (liftLost hasLost) (countingPlay play) (0, 1) n (s, a, a)).2.2 ∧
    (runRounds (liftLost hasLost) (countingPlay play) (1, 0) n (s, a, a)).2.1 =
      (runRounds (liftLost hasLost) (countingPlay play) (1, 0) n (s, a, a)).2.2 :=
  ⟨rfl, counts_balanced_aux hasLost play _ (Or.inl rfl) n s a a rfl,
    counts_balanced_aux hasLost play _ (Or.inr rfl) n s a a rfl⟩

theorem countRoadsOfColor_congr (roads roads2 : String → RoadInfo) (owned : List String)
    (c : Color) (h : ∀ x, (roads2 x).color = (roads x).color) :
    countRoadsOfColor roads2 owned c = countRoadsOfColor roads owned c := by
  unfold countRoadsOfColor
  have key : ∀ (l : List String) (a : Nat),
      l.foldl (fun acc road => if c = (roads2 road).color then acc + 1 else acc) a =
      l.foldl (fun acc road => if c = (roads road).color then acc + 1 else acc) a := by
    intro l
    induction l with
    | nil => intro a; rfl
    | cons x xs ih =>
      intro a
      simp only [List.foldl_cons, h x]
      exact ih _
  exact key owned 0

theorem countRoadsOfColor_append (roads : String → RoadInfo) (owned : List String)
    (r : String) (c : Color) :
    countRoadsOfColor roads (owned ++ [r]) c =
      countRoadsOfColor roads owned c + (if c = (roads r).color then 1 else 0) := by
  unfold countRoadsOfColor
  rw [List.foldl_append]
  simp only [List.foldl_cons, List.foldl_nil]
  by_cases hc : c = (roads r).color <;> simp [hc]

theorem colorInv_buy (s : BuyState) (r : String) (h : colorInv s) :
    colorInv (buy_no_brown s r).2 := by
  simp only [buy_no_brown]
  by_cases h1 : (s.roads r).color = Color.brown
  · rw [if_pos h1]; exact h
  · rw [if_neg h1]
    by_cases h2 : s.player.cash < (s.roads r).price
    · rw [if_pos h2]; exact h
    · rw [if_neg h2]
      intro c
      simp only
      have hcol : ∀ x,
          ((fun x => if x = r then { s.roads x with belongs_to := some s.player.name }
            else s.roads x) x).color = (s.roads x).color := by
        intro x
        by_cases hx : x = r <;> simp [hx]
      have hcnt : ∀ c' : Color,
          countRoadsOfColor
            (fun x => if x = r then { s.roads x with belongs_to := some s.player.name }
              else s.roads x)
            (s.player.list_owned_roads ++ [r]) c' =
          countRoadsOfColor s.roads s.player.list_owned_roads c' +
            (if c' = (s.roads r).color then 1 else 0) := by
        intro c'
        rw [countRoadsOfColor_congr s.roads _ _ _ hcol, countRoadsOfColor_append]
      rw [hcnt c, hcnt (s.roads r).color]
      rw [if_pos rfl]
      rw [updateOwnedColors_eq]
      by_cases hcC : c = (s.roads r).color
      · subst hcC
        rw [if_pos rfl]
        by_cases ht :
            countRoadsOfColor s.roads s.player.list_owned_roads (s.roads r).color + 1 =
              threshold (s.roads r).color
        · rw [if_pos ht]
          unfold setColorTrue
          simp only [if_pos rfl]
          constructor
          · intro _; omega
          · intro _; rfl
        · rw [if_neg ht]
          rw [h (s.roads r).color]
          have hne :
              ¬ countRoadsOfColor s.roads s.player.list_owned_roads (s.roads r).color + 1 =
                threshold (s.roads r).color := ht
          omega
      · rw [if_neg hcC]
        have hLHS : ∀ b : Bool,
            (if countRoadsOfColor s.roads s.player.list_owned_roads (s.roads r).color + 1 =
                threshold (s.roads r).color
              then setColorTrue s.player.owned_colors (s.roads r).color
              else s.player.owned_colors) c = s.player.owned_colors c := by
          intro _
          by_cases ht :
              countRoadsOfColor s.roads s.player.list_owned_roads (s.roads r).color + 1 =
                threshold (s.roads r).color
          · rw [if_pos ht]
            unfold setColorTrue
            rw [if_neg hcC]
          · rw [if_neg ht]
        rw [hLHS true]
        simpa using h c

theorem colorInv_init (name : String) (cash bank : Int) (others : List Int)
    (roads : String → RoadInfo) :
    colorInv (initState name cash bank others roads) := by
  intro c
  cases c <;> simp [initState, initPlayer, countRoadsOfColor, threshold]

theorem colorInv_buysFrom (rs : List String) :
    ∀ s : BuyState, colorInv s → colorInv (buysFrom s rs) := by
  induction rs with
  | nil => intro s h; exact h
  | cons r rs ih => intro s h; exact ih _ (colorInv_buy s r h)

/-- Claim C3: over any sequence of buy calls from a fresh player, a
color group is marked complete exactly when the count of owned roads
of that color (scanning only the player's owned list against the
roads table) meets or exceeds the static threshold table brown 2,
light blue 3, purple 3, orange 3, red 3, yellow 3, green 3, blue 2; so
a player owning threshold minus one roads of a color is never marked,
and one owning threshold roads is. -/
theorem monopoly_marking_correct (name : String) (cash bank : Int) (others : List Int)
    (roads : String → RoadInfo) (rs : List String) (c : Color) :
    (threshold Color.brown = 2 ∧ threshold Color.light_blue = 3 ∧
     threshold Color.purple = 3 ∧ threshold Color.orange = 3 ∧
     threshold Color.red = 3 ∧ threshold Color.yellow = 3 ∧
     threshold Color.green = 3 ∧ threshold Color.blue = 2) ∧
    ((buysFrom (initState name cash bank others roads) rs).player.owned_colors c = true ↔
      threshold c ≤
        countRoadsOfColor (buysFrom (initState name cash bank others roads) rs).roads
          (buysFrom (initState name cash bank others roads) rs).player.list_owned_roads c) :=
  ⟨⟨rfl, rfl, rfl, rfl, rfl, rfl, rfl, rfl⟩,
    colorInv_buysFrom rs _ (colorInv_init name cash bank others roads) c⟩

theorem counts_filter_decided (results : List TrialResult) :
    n_lost_p1 (decidedOnly results) = n_lost_p1 results ∧
    n_lost_p2 (decidedOnly results) = n_lost_p2 results ∧
    n_lost_p1 results + n_lost_p2 results = (decidedOnly results).length := by
  induction results with
  | nil => exact ⟨rfl, rfl, rfl⟩
  | cons t ts ih =>
    obtain ⟨ih1, ih2, ih3⟩ := ih
    cases ho : t.lost_player <;>
      simp [n_lost_p1, n_lost_p2, decidedOnly, List.filter_cons, ho] at ih1 ih2 ih3 ⊢ <;>
      omega

/-- Claim C8: the statistical call is an exact two-sided binomial test
against null probability one half whose k is the player1_lost count
and whose n is the sum of the two loss counts; nobody_lost rows feed
neither argument, so dropping them changes neither the call nor the
p-value, and n is exactly the number of decided rows. -/
theorem significance_excludes_undecided (results : List TrialResult) :
    significanceCall (decidedOnly results) = significanceCall results ∧
    (significanceCall results).n = (decidedOnly results).length ∧
    (significanceCall results).k = n_lost_p1 results ∧
    (significanceCall results).p = 1 / 2 ∧
    (significanceCall results).two_sided = true ∧
    significance results =
      binomTwoSidedPValue (n_lost_p1 results) (n_lost_p1 results + n_lost_p2 results) ∧
    significance (decidedOnly results) = significance results := by
  obtain ⟨h1, h2, h3⟩ := counts_filter_decided results
  refine ⟨?_, ?_, rfl, rfl, rfl, rfl, ?_⟩
  · simp [significanceCall, h1, h2]
  · simpa [significanceCall] using h3
  · simp [significance, significanceCall, h1, h2]

end MonopolySim
